import Mathlib

/-!
Shallow embedding of the MLX inference-serving shim
(src/mlx_api/config.py, src/mlx_api/models.py, src/mlx_api/server.py).

The serving core is embedded as pure Lean functions:

* `Config` mirrors `config.py`: the dataclass of resolved settings.
* `Message`, `GenerateRequest`, `GenerateResponse`, `HealthResponse`
  mirror the pydantic models of `models.py`; `parseGenerateRequest`
  embeds the validation pydantic performs on the request body
  (`Field` bounds `ge`/`le` on `max_tokens`, `temperature`, `top_p`,
  defaults 512 / 0.7 / 0.9; no constraint is declared on `messages`
  or on `Message.role`, faithful to the source).
* `ModelState` mirrors the module-level `ModelState` of `server.py`.
* `Runtime` abstracts the external collaborators consumed by the
  handler: `tokenizer.apply_chat_template`, `tokenizer.encode`, and
  `mlx_lm.generate`, each returning `Except String` to model Python
  exceptions, plus a wall-clock duration for each call so that the
  timing arithmetic of the handler can be stated exactly.  Time is
  modelled with `Rat` (Python `time.time()` readings) and
  `int(x * 1000)` with `Int.floor` (all durations are nonnegative in
  the runs we consider).
* `generate_response`, `health_check`, `get_stats` embed the three
  endpoint handlers.  `generate_response` additionally returns the
  updated `ModelState` and the list of calls made to
  `mlx_lm.generate` (the generation trace), so that claims about
  counter updates and about which arguments reach the model runtime
  can be stated.
-/

namespace MlxApi

/-- Embeds the `Config` dataclass of `config.py`.  Numeric fields that
pydantic treats as ints stay `Int`; generation defaults that are floats
become `Rat`. -/
structure Config where
  model_id : String
  host : String
  port : Int
  default_max_tokens : Int
  default_temperature : Rat
  default_top_p : Rat
  max_input_tokens : Int
  max_output_tokens : Int
  request_timeout : Int
  deriving Repr, DecidableEq

/-- The default configuration values of `config.py` (the values used
when no environment variable overrides them). -/
def defaultConfig : Config :=
  { model_id := "mlx-community/Llama-3.2-3B-Instruct-4bit"
    host := "0.0.0.0"
    port := 8000
    default_max_tokens := 512
    default_temperature := 7/10
    default_top_p := 9/10
    max_input_tokens := 2048
    max_output_tokens := 1024
    request_timeout := 60 }

/-- Embeds `Message` of `models.py`: `role` and `content` are plain
strings; the source declares no validator restricting `role`. -/
structure Message where
  role : String
  content : String
  deriving Repr, DecidableEq

/-- An inbound `/generate` JSON body before pydantic validation:
`messages` as parsed, each optional numeric field either present or
absent (absent fields take the declared defaults). -/
structure RawGenerateRequest where
  messages : List Message
  max_tokens : Option Int
  temperature : Option Rat
  top_p : Option Rat
  deriving Repr, DecidableEq

/-- Embeds `GenerateRequest` of `models.py` after pydantic validation
succeeded. -/
structure GenerateRequest where
  messages : List Message
  max_tokens : Int
  temperature : Rat
  top_p : Rat
  deriving Repr, DecidableEq

/-- Embeds the pydantic validation of `GenerateRequest` in `models.py`:
`max_tokens : int = Field(default=512, ge=1, le=2048)`,
`temperature : float = Field(default=0.7, ge=0.0, le=2.0)`,
`top_p : float = Field(default=0.9, ge=0.0, le=1.0)`;
`messages : list[Message]` carries no constraint, and `Message.role`
is an unconstrained `str`. -/
def parseGenerateRequest (raw : RawGenerateRequest) : Except String GenerateRequest :=
  let mt := raw.max_tokens.getD 512
  let temp := raw.temperature.getD (7/10)
  let tp := raw.top_p.getD (9/10)
  if mt < 1 ∨ 2048 < mt then .error "max_tokens out of range"
  else if temp < 0 ∨ 2 < temp then .error "temperature out of range"
  else if tp < 0 ∨ 1 < tp then .error "top_p out of range"
  else .ok { messages := raw.messages, max_tokens := mt, temperature := temp, top_p := tp }

/-- Embeds the module-level `ModelState` of `server.py`.  The loaded
model and tokenizer objects are abstracted to `Option Unit`: only
whether they are `None` matters to the serving logic. -/
structure ModelState where
  model : Option Unit
  tokenizer : Option Unit
  model_id : String
  load_time : Rat
  start_time : Rat
  request_count : Nat
  total_tokens_generated : Nat
  deriving Repr, DecidableEq

/-- One invocation of `mlx_lm.generate` as issued by the handler:
the rendered prompt and the keyword arguments `max_tokens`, `temp`,
`top_p` of the call at `server.py` lines 161-168. -/
structure GenCall where
  prompt : String
  max_tokens : Int
  temp : Rat
  top_p : Rat
  deriving Repr, DecidableEq

/-- The external model runtime as consumed by the handler.  Each
operation may raise (Python exception, modelled as `.error msg`), and
each has a wall-clock duration so the elapsed-time arithmetic of the
handler can be embedded exactly. -/
structure Runtime where
  apply_chat_template : List Message → Except String String
  encode : String → Except String (List Nat)
  generate : GenCall → Except String String
  renderDuration : Rat
  encodeDuration : String → Rat
  generateDuration : Rat

/-- Embeds `GenerateResponse` of `models.py`. -/
structure GenerateResponse where
  response : String
  tokens_generated : Nat
  generation_time_ms : Int
  model : String
  deriving Repr, DecidableEq

/-- Embeds `HealthResponse` of `models.py`. -/
structure HealthResponse where
  status : String
  model : String
  model_loaded : Bool
  uptime_seconds : Rat
  deriving Repr, DecidableEq

/-- The body returned by `GET /stats` in `server.py`. -/
structure StatsResponse where
  model : String
  model_load_time_seconds : Rat
  uptime_seconds : Rat
  total_requests : Nat
  total_tokens_generated : Nat
  deriving Repr, DecidableEq

/-- Outcome of the `/generate` handler: either a successful
`GenerateResponse` or an `HTTPException` with status code and detail
string. -/
inductive HandlerResult where
  | ok : GenerateResponse → HandlerResult
  | httpError : Int → String → HandlerResult
  deriving Repr, DecidableEq

/-- Embeds `health_check` of `server.py` (lines 99-107).  `now` is the
`time.time()` reading; the Python truthiness test `if state.start_time`
is `start_time ≠ 0`. -/
def health_check (st : ModelState) (now : Rat) : HealthResponse :=
  { status := if st.model.isSome then "healthy" else "unhealthy"
    model := st.model_id
    model_loaded := st.model.isSome
    uptime_seconds := if st.start_time ≠ 0 then now - st.start_time else 0 }

/-- Embeds `get_stats` of `server.py` (lines 110-119).  `now` is the
`time.time()` reading; there is no guard on `start_time` here. -/
def get_stats (st : ModelState) (now : Rat) : StatsResponse :=
  { model := st.model_id
    model_load_time_seconds := st.load_time
    uptime_seconds := now - st.start_time
    total_requests := st.request_count
    total_tokens_generated := st.total_tokens_generated }

/-- Embeds `generate_response` of `server.py` (lines 122-191).  `now`
is the `time.time()` reading at line 136; later readings are `now` plus
the durations of the runtime calls executed so far.  Returns the
handler outcome, the `ModelState` after the handler, and the list of
calls issued to `mlx_lm.generate`.  Python exceptions from the runtime
are `.error` values; an `HTTPException` raised inside the `try` block
is re-raised unchanged by `except HTTPException: raise`, and every
other exception becomes a 500 with detail `"Generation failed: ..."`. -/
def generate_response (cfg : Config) (rt : Runtime) (st : ModelState) (now : Rat)
    (request : GenerateRequest) : HandlerResult × ModelState × List GenCall :=
  if st.model.isNone || st.tokenizer.isNone then
    (.httpError 503 "Model not loaded. Server is starting up.", st, [])
  else
    let start_time := now
    let st1 : ModelState := { st with request_count := st.request_count + 1 }
    match rt.apply_chat_template request.messages with
    | .error e => (.httpError 500 ("Generation failed: " ++ e), st1, [])
    | .ok prompt =>
      match rt.encode prompt with
      | .error e => (.httpError 500 ("Generation failed: " ++ e), st1, [])
      | .ok promptTokens =>
        let input_tokens := promptTokens.length
        if (input_tokens : Int) > cfg.max_input_tokens then
          (.httpError 400 ("Input too long: " ++ toString input_tokens ++
            " tokens (max: " ++ toString cfg.max_input_tokens ++ ")"), st1, [])
        else
          let call : GenCall :=
            { prompt := prompt
              max_tokens := min request.max_tokens cfg.max_output_tokens
              temp := request.temperature
              top_p := request.top_p }
          match rt.generate call with
          | .error e => (.httpError 500 ("Generation failed: " ++ e), st1, [call])
          | .ok response_text =>
            let tEnd := now + rt.renderDuration + rt.encodeDuration prompt
              + rt.generateDuration
            let elapsed_ms := Int.floor ((tEnd - start_time) * 1000)
            match rt.encode response_text with
            | .error e => (.httpError 500 ("Generation failed: " ++ e), st1, [call])
            | .ok outTokens =>
              let tokens_generated := outTokens.length
              let st2 : ModelState := { st1 with
                total_tokens_generated := st1.total_tokens_generated + tokens_generated }
              (.ok { response := response_text
                     tokens_generated := tokens_generated
                     generation_time_ms := elapsed_ms
                     model := st2.model_id }, st2, [call])

/-! ### Concrete fixtures used by counterexamples and witnesses -/

/-- A `ModelState` as it stands right after a successful load. -/
def loadedState : ModelState :=
  { model := some (), tokenizer := some (), model_id := "m", load_time := 2,
    start_time := 100, request_count := 0, total_tokens_generated := 0 }

/-- A `ModelState` before any load: model and tokenizer are `None` and
`start_time` is the 0 it is initialised to. -/
def unloadedState : ModelState :=
  { model := none, tokenizer := none, model_id := "", load_time := 0,
    start_time := 0, request_count := 0, total_tokens_generated := 0 }

/-- The round-trip request of the spec: a system and a user message with
`max_tokens` 50 and default sampling parameters. -/
def req0 : GenerateRequest :=
  { messages := [{ role := "system", content := "You are a helpful assistant." },
                 { role := "user", content := "Hello" }],
    max_tokens := 50, temperature := 7/10, top_p := 9/10 }

/-- A stub runtime: rendering yields the prompt `"P"`, every encode reports
three tokens, generation echoes `"out"`, and every call takes zero time. -/
def rt3 : Runtime :=
  { apply_chat_template := fun _ => .ok "P"
    encode := fun _ => .ok [0, 0, 0]
    generate := fun _ => .ok "out"
    renderDuration := 0
    encodeDuration := fun _ => 0
    generateDuration := 0 }

/-- The default configuration with the input-token ceiling lowered to 2, so
that the three-token prompt of `rt3` trips the input-length check. -/
def smallCfg : Config := { defaultConfig with max_input_tokens := 2 }

/-- Runtime whose chat-template rendering raises, to observe whether the
handler reaches the tokenizer. -/
def rtRenderBoom : Runtime :=
  { rt3 with apply_chat_template := fun _ => .error "boom" }

/-- Runtime whose token encoding raises. -/
def rtEncodeBoom : Runtime := { rt3 with encode := fun _ => .error "tok" }

/-- Runtime whose generate call raises. -/
def rtGenBoom : Runtime := { rt3 with generate := fun _ => .error "gen" }

/-- Runtime whose tokenizer encodes the prompt `"P"` normally but raises on
any other text, so encoding the generated output fails after generation
completed. -/
def rtOutEncodeBoom : Runtime :=
  { rt3 with encode := fun s => if s = "P" then .ok [0, 0, 0] else .error "outboom" }

/-- Runtime where rendering and token counting each take one second and the
generate call takes zero time. -/
def rtSlowPrep : Runtime :=
  { rt3 with renderDuration := 1, encodeDuration := fun _ => 1 }

/-- Runtime whose generate call takes 61 seconds, exceeding the default
60-second request timeout. -/
def rtSlowGen : Runtime := { rt3 with generateDuration := 61 }

/-- The single generate call `rt3` receives for `req0` under
`defaultConfig`. -/
def call0 : GenCall :=
  { prompt := "P", max_tokens := 50, temp := 7/10, top_p := 9/10 }

/-- Raw request body with an empty message list and all numeric fields
absent (so the declared defaults apply). -/
def emptyMessagesRaw : RawGenerateRequest :=
  { messages := [], max_tokens := none, temperature := none, top_p := none }

/-- Raw request body whose only message has a role outside
system/user/assistant. -/
def unknownRoleRaw : RawGenerateRequest :=
  { messages := [{ role := "wizard", content := "hi" }],
    max_tokens := none, temperature := none, top_p := none }

/-- The parsed form of `emptyMessagesRaw`. -/
def emptyMessagesReq : GenerateRequest :=
  { messages := [], max_tokens := 512, temperature := 7/10, top_p := 9/10 }

/-! ### Theorems -/

/-- C2: while no model is loaded, the handler fails immediately with HTTP
503, performs no partial work (no generate call is made), and returns the
state unchanged, so `request_count` and `total_tokens_generated` are
untouched. -/
theorem service_unavailable_when_not_loaded (cfg : Config) (rt : Runtime)
    (st : ModelState) (now : Rat) (req : GenerateRequest)
    (h : st.model = none ∨ st.tokenizer = none) :
    generate_response cfg rt st now req =
      (.httpError 503 "Model not loaded. Server is starting up.", st, []) := by
  rcases h with h | h <;> simp [generate_response, h]

theorem service_unavailable_when_not_loaded_witness :
    generate_response defaultConfig rt3 unloadedState 0 req0 =
      (.httpError 503 "Model not loaded. Server is starting up.",
        unloadedState, []) :=
  service_unavailable_when_not_loaded defaultConfig rt3 unloadedState 0 req0
    (Or.inl rfl)

/-- C8: the health endpoint reports status healthy iff the model is loaded
(and `model_loaded` agrees with that), reports uptime `now - start_time` when
a model was loaded (`start_time` set) and 0 when the model was never loaded
(`start_time` still 0); as a total Lean function it never fails. -/
theorem health_check_spec (st : ModelState) (now : Rat) :
    ((health_check st now).status = "healthy" ↔ st.model.isSome = true) ∧
    (health_check st now).model_loaded = st.model.isSome ∧
    (st.start_time = 0 → (health_check st now).uptime_seconds = 0) ∧
    (st.start_time ≠ 0 →
      (health_check st now).uptime_seconds = now - st.start_time) := by
  refine ⟨?_, rfl, ?_, ?_⟩
  · cases h : st.model <;> simp [health_check, h]
  · intro h; simp [health_check, h]
  · intro h; simp [health_check, h]

theorem health_check_spec_witness :
    ((health_check loadedState 105).status = "healthy"
        ↔ loadedState.model.isSome = true) ∧
    (health_check unloadedState 5).uptime_seconds = 0 ∧
    (health_check loadedState 105).uptime_seconds = 105 - 100 :=
  ⟨(health_check_spec loadedState 105).1,
   (health_check_spec unloadedState 5).2.2.1 rfl,
   (health_check_spec loadedState 105).2.2.2 (by decide)⟩

/-- C10: when the model was never loaded (`start_time` is the initial 0),
the stats endpoint reports uptime `now - 0 = now`, the raw seconds-since-
epoch reading, whereas the health endpoint guards this case and reports 0. -/
theorem stats_uptime_unguarded (st : ModelState) (now : Rat)
    (h : st.start_time = 0) :
    (get_stats st now).uptime_seconds = now ∧
    (health_check st now).uptime_seconds = 0 := by
  simp [get_stats, health_check, h]

theorem stats_uptime_unguarded_witness :
    (get_stats unloadedState 12345).uptime_seconds = 12345 ∧
    (health_check unloadedState 12345).uptime_seconds = 0 :=
  stats_uptime_unguarded unloadedState 12345 rfl

/-- C3: whenever the rendered prompt encodes to more tokens than the
configured `max_input_tokens` ceiling, the handler fails with HTTP 400
whose detail reports both the measured token count and the ceiling, and no
call to the generate runtime is made (the generation trace is empty). -/
theorem input_too_long_rejected (cfg : Config) (rt : Runtime) (st : ModelState)
    (now : Rat) (req : GenerateRequest) (prompt : String) (toks : List Nat)
    (hm : st.model = some ()) (ht : st.tokenizer = some ())
    (hrender : rt.apply_chat_template req.messages = .ok prompt)
    (hencode : rt.encode prompt = .ok toks)
    (hlong : (toks.length : Int) > cfg.max_input_tokens) :
    (generate_response cfg rt st now req).1 =
      .httpError 400 ("Input too long: " ++ toString toks.length ++
        " tokens (max: " ++ toString cfg.max_input_tokens ++ ")") ∧
    (generate_response cfg rt st now req).2.2 = [] := by
  simp [generate_response, hm, ht, hrender, hencode, hlong]

theorem input_too_long_rejected_witness :
    (generate_response smallCfg rt3 loadedState 100 req0).1 =
      .httpError 400 ("Input too long: " ++ toString (3 : Nat) ++
        " tokens (max: " ++ toString (2 : Int) ++ ")") ∧
    (generate_response smallCfg rt3 loadedState 100 req0).2.2 = [] :=
  input_too_long_rejected smallCfg rt3 loadedState 100 req0 "P" [0, 0, 0]
    rfl rfl rfl rfl (by decide)

/-- C4: every call that reaches the generate runtime carries
`max_tokens = min request.max_tokens config.max_output_tokens`: the server
ceiling wins over a larger client value and a smaller client value is never
raised. -/
theorem effective_max_tokens (cfg : Config) (rt : Runtime) (st : ModelState)
    (now : Rat) (req : GenerateRequest) (call : GenCall)
    (h : call ∈ (generate_response cfg rt st now req).2.2) :
    call.max_tokens = min req.max_tokens cfg.max_output_tokens := by
  by_cases hml : (st.model.isNone || st.tokenizer.isNone) = true
  · simp [generate_response, hml] at h
  · rcases h1 : rt.apply_chat_template req.messages with e | prompt
    · simp [generate_response, hml, h1] at h
    · rcases h2 : rt.encode prompt with e | toks
      · simp [generate_response, hml, h1, h2] at h
      · by_cases h3 : (toks.length : Int) > cfg.max_input_tokens
        · simp [generate_response, hml, h1, h2, h3] at h
        · rcases h4 : rt.generate ⟨prompt, min req.max_tokens cfg.max_output_tokens, req.temperature, req.top_p⟩ with e | txt
          · simp [generate_response, hml, h1, h2, h3, h4] at h
            simp [h]
          · rcases h5 : rt.encode txt with e | outToks <;>
            · simp [generate_response, hml, h1, h2, h3, h4, h5] at h
              simp [h]

theorem effective_max_tokens_witness :
    call0.max_tokens = min req0.max_tokens defaultConfig.max_output_tokens :=
  effective_max_tokens defaultConfig rt3 loadedState 100 req0 call0
    (by simp [generate_response, rt3, loadedState, req0, defaultConfig, call0])

/-- C1 (counterexample): both halves of the claim fail on the code.  First,
a request that fails at input-length enforcement — before generation began,
as witnessed by the empty generation trace — nevertheless leaves
`request_count` incremented from 0 to 1, so the counters are not left
untouched by a request that failed before generation.  Second, a request
whose generation completed — the generate call appears in the trace — but
whose output token counting then raises leaves `total_tokens_generated`
unchanged at 0, so the counters are not updated exactly once for every
request that completed generation. -/
theorem counter_touched_before_generation_cex :
    ((generate_response smallCfg rt3 loadedState 100 req0).1
        = .httpError 400 "Input too long: 3 tokens (max: 2)" ∧
     (generate_response smallCfg rt3 loadedState 100 req0).2.2 = [] ∧
     (generate_response smallCfg rt3 loadedState 100 req0).2.1.request_count = 1 ∧
     loadedState.request_count = 0) ∧
    ((generate_response defaultConfig rtOutEncodeBoom loadedState 100 req0).1
        = .httpError 500 "Generation failed: outboom" ∧
     (generate_response defaultConfig rtOutEncodeBoom loadedState 100 req0).2.2
        = [call0] ∧
     (generate_response defaultConfig rtOutEncodeBoom loadedState 100 req0).2.1.total_tokens_generated
        = 0 ∧
     loadedState.total_tokens_generated = 0) :=
  ⟨⟨rfl, rfl, rfl, rfl⟩, ⟨rfl, rfl, rfl, rfl⟩⟩

/-- C1 (amended): once the readiness gate is passed, `request_count` is
incremented exactly once whether or not generation occurs, while
`total_tokens_generated` is unchanged whenever the handler returns an error
(in particular for every request failing before generation began) and grows
by the reported output token count exactly when the handler returns a
successful response. -/
theorem counter_update_discipline (cfg : Config) (rt : Runtime) (st : ModelState)
    (now : Rat) (req : GenerateRequest)
    (hm : st.model = some ()) (ht : st.tokenizer = some ()) :
    (generate_response cfg rt st now req).2.1.request_count = st.request_count + 1 ∧
    (∀ r, (generate_response cfg rt st now req).1 = .ok r →
      (generate_response cfg rt st now req).2.1.total_tokens_generated
        = st.total_tokens_generated + r.tokens_generated) ∧
    (∀ c d, (generate_response cfg rt st now req).1 = .httpError c d →
      (generate_response cfg rt st now req).2.1.total_tokens_generated
        = st.total_tokens_generated) := by
  rcases h1 : rt.apply_chat_template req.messages with e | prompt
  · simp [generate_response, hm, ht, h1]
  · rcases h2 : rt.encode prompt with e | toks
    · simp [generate_response, hm, ht, h1, h2]
    · by_cases h3 : (toks.length : Int) > cfg.max_input_tokens
      · simp [generate_response, hm, ht, h1, h2, h3]
      · rcases h4 : rt.generate ⟨prompt, min req.max_tokens cfg.max_output_tokens, req.temperature, req.top_p⟩ with e | txt
        · simp [generate_response, hm, ht, h1, h2, h3, h4]
        · rcases h5 : rt.encode txt with e | outToks
          · simp [generate_response, hm, ht, h1, h2, h3, h4, h5]
          · simp [generate_response, hm, ht, h1, h2, h3, h4, h5]

theorem counter_update_discipline_witness :
    (generate_response defaultConfig rt3 loadedState 100 req0).2.1.request_count
      = loadedState.request_count + 1 ∧
    (generate_response defaultConfig rt3 loadedState 100 req0).2.1.total_tokens_generated
      = loadedState.total_tokens_generated + 3 := by
  have h := counter_update_discipline defaultConfig rt3 loadedState 100 req0 rfl rfl
  exact ⟨h.1, h.2.1 _ rfl⟩

/-- C9: every runtime exception raised during prompt rendering, token
counting of the prompt, or generation is caught at the handler boundary and
translated to HTTP 500 whose detail carries the original exception message;
being a total function, the embedded handler never escapes with an
exception. -/
theorem runtime_errors_translated (cfg : Config) (rt : Runtime) (st : ModelState)
    (now : Rat) (req : GenerateRequest)
    (hm : st.model = some ()) (ht : st.tokenizer = some ()) :
    (∀ e, rt.apply_chat_template req.messages = .error e →
      (generate_response cfg rt st now req).1
        = .httpError 500 ("Generation failed: " ++ e)) ∧
    (∀ prompt e, rt.apply_chat_template req.messages = .ok prompt →
      rt.encode prompt = .error e →
      (generate_response cfg rt st now req).1
        = .httpError 500 ("Generation failed: " ++ e)) ∧
    (∀ prompt toks e, rt.apply_chat_template req.messages = .ok prompt →
      rt.encode prompt = .ok toks →
      ¬((toks.length : Int) > cfg.max_input_tokens) →
      rt.generate ⟨prompt, min req.max_tokens cfg.max_output_tokens, req.temperature, req.top_p⟩ = .error e →
      (generate_response cfg rt st now req).1
        = .httpError 500 ("Generation failed: " ++ e)) := by
  refine ⟨?_, ?_, ?_⟩ <;> intros <;> simp [generate_response, hm, ht, *]

theorem runtime_errors_translated_witness :
    (generate_response defaultConfig rtRenderBoom loadedState 100 req0).1
      = .httpError 500 ("Generation failed: " ++ "boom") ∧
    (generate_response defaultConfig rtEncodeBoom loadedState 100 req0).1
      = .httpError 500 ("Generation failed: " ++ "tok") ∧
    (generate_response defaultConfig rtGenBoom loadedState 100 req0).1
      = .httpError 500 ("Generation failed: " ++ "gen") :=
  ⟨(runtime_errors_translated defaultConfig rtRenderBoom loadedState 100 req0
      rfl rfl).1 "boom" rfl,
   (runtime_errors_translated defaultConfig rtEncodeBoom loadedState 100 req0
      rfl rfl).2.1 "P" "tok" rfl rfl,
   (runtime_errors_translated defaultConfig rtGenBoom loadedState 100 req0
      rfl rfl).2.2 "P" [0, 0, 0] "gen" rfl rfl (by decide) rfl⟩

/-- C5 (counterexample): a request body with an empty message list and one
whose only message has the unknown role "wizard" both pass validation
unrejected, and the empty-messages request then reaches the tokenizer — the
handler surfaces the chat-template failure as a 500 rather than rejecting
the request — contradicting the claim that such requests are rejected with
InvalidRequest before any tokenizer or model call. -/
theorem shape_validation_missing_cex :
    parseGenerateRequest emptyMessagesRaw = .ok emptyMessagesReq ∧
    parseGenerateRequest unknownRoleRaw
      = .ok { messages := [{ role := "wizard", content := "hi" }],
              max_tokens := 512, temperature := 7/10, top_p := 9/10 } ∧
    (generate_response defaultConfig rtRenderBoom loadedState 100
        emptyMessagesReq).1
      = .httpError 500 "Generation failed: boom" := by
  refine ⟨?_, ?_, rfl⟩ <;>
    norm_num [parseGenerateRequest, emptyMessagesRaw, unknownRoleRaw,
      emptyMessagesReq]

/-- C5 (amended): the validation layer rejects exactly the requests whose
numeric fields are out of range — `max_tokens` outside [1, 2048],
`temperature` outside [0, 2], `top_p` outside [0, 1], with the declared
defaults substituted for absent fields — and it does so before any tokenizer
or model call; the message list is not validated at all: emptiness and
unknown roles pass through to the handler unchanged. -/
theorem validation_accepts_iff_bounds (raw : RawGenerateRequest) :
    (∃ q, parseGenerateRequest raw = .ok q ∧ q.messages = raw.messages) ↔
      (1 ≤ raw.max_tokens.getD 512 ∧ raw.max_tokens.getD 512 ≤ 2048 ∧
       0 ≤ raw.temperature.getD (7/10) ∧ raw.temperature.getD (7/10) ≤ 2 ∧
       0 ≤ raw.top_p.getD (9/10) ∧ raw.top_p.getD (9/10) ≤ 1) := by
  simp only [parseGenerateRequest]
  split_ifs with h1 h2 h3
  · simp only [not_lt] at *
    constructor
    · rintro ⟨q, hq, -⟩; cases hq
    · rintro ⟨a1, a2, -⟩
      rcases h1 with h1 | h1 <;> omega
  · simp only [not_lt] at *
    constructor
    · rintro ⟨q, hq, -⟩; cases hq
    · rintro ⟨-, -, a3, a4, -⟩
      rcases h2 with h2 | h2 <;> linarith
  · simp only [not_lt] at *
    constructor
    · rintro ⟨q, hq, -⟩; cases hq
    · rintro ⟨-, -, -, -, a5, a6⟩
      rcases h3 with h3 | h3 <;> linarith
  · push_neg at h1 h2 h3
    simp only [Except.ok.injEq]
    constructor
    · rintro -
      exact ⟨h1.1, h1.2, h2.1, h2.2, h3.1, h3.2⟩
    · rintro -
      exact ⟨_, rfl, rfl⟩

/-- C6 (counterexample): with one second spent rendering the prompt, one
second counting its tokens, and a zero-duration generate call, the reported
`generation_time_ms` is 2000, not the 0 ms that a measurement around the
generate call only would give. -/
theorem generation_time_includes_prep_cex :
    (generate_response defaultConfig rtSlowPrep loadedState 100 req0).1
      = .ok { response := "out", tokens_generated := 3,
              generation_time_ms := 2000, model := "m" } ∧
    Int.floor (rtSlowPrep.generateDuration * 1000) = 0 := by
  constructor
  · norm_num [generate_response, rtSlowPrep, rt3, loadedState, req0,
      defaultConfig]
  · norm_num [rtSlowPrep, rt3]

/-- C6 (amended): for every successful generation request, the reported
`generation_time_ms` measures the wall-clock interval from the reading taken
just after the readiness gate to just after the generate call, so it covers
prompt rendering and input token counting as well as the generation call
itself. -/
theorem generation_time_spans_handler_body (cfg : Config) (rt : Runtime)
    (st : ModelState) (now : Rat) (req : GenerateRequest) (prompt txt : String)
    (toks outToks : List Nat)
    (hm : st.model = some ()) (ht : st.tokenizer = some ())
    (h1 : rt.apply_chat_template req.messages = .ok prompt)
    (h2 : rt.encode prompt = .ok toks)
    (h3 : ¬((toks.length : Int) > cfg.max_input_tokens))
    (h4 : rt.generate ⟨prompt, min req.max_tokens cfg.max_output_tokens, req.temperature, req.top_p⟩ = .ok txt)
    (h5 : rt.encode txt = .ok outToks) :
    (generate_response cfg rt st now req).1
      = .ok { response := txt, tokens_generated := outToks.length,
              generation_time_ms := Int.floor ((rt.renderDuration + rt.encodeDuration prompt + rt.generateDuration) * 1000),
              model := st.model_id } := by
  have harith : now + rt.renderDuration + rt.encodeDuration prompt
      + rt.generateDuration - now
      = rt.renderDuration + rt.encodeDuration prompt + rt.generateDuration := by
    ring
  simp [generate_response, hm, ht, h1, h2, h3, h4, h5, harith]

theorem generation_time_spans_handler_body_witness :
    (generate_response defaultConfig rtSlowPrep loadedState 100 req0).1
      = .ok { response := "out", tokens_generated := 3,
              generation_time_ms := Int.floor ((rtSlowPrep.renderDuration + rtSlowPrep.encodeDuration "P" + rtSlowPrep.generateDuration) * 1000),
              model := loadedState.model_id } :=
  generation_time_spans_handler_body defaultConfig rtSlowPrep loadedState 100
    req0 "P" "out" [0, 0, 0] [0, 0, 0] rfl rfl rfl rfl (by decide) rfl rfl

/-- C7 (code_bug): the handler never consults `request_timeout` — its result
is invariant under arbitrary changes to that setting — and a generate call
lasting 61 seconds under the default 60-second budget still completes
normally with a success response and an incremented request count, instead
of being abandoned with a Timeout failure. -/
theorem timeout_never_enforced :
    (∀ (cfg : Config) (rt : Runtime) (st : ModelState) (now : Rat)
        (req : GenerateRequest) (t : Int),
      generate_response { cfg with request_timeout := t } rt st now req
        = generate_response cfg rt st now req) ∧
    defaultConfig.request_timeout = 60 ∧
    rtSlowGen.generateDuration = 61 ∧
    (generate_response defaultConfig rtSlowGen loadedState 100 req0).1
      = .ok { response := "out", tokens_generated := 3,
              generation_time_ms := 61000, model := "m" } ∧
    (generate_response defaultConfig rtSlowGen loadedState 100 req0).2.1.request_count
      = loadedState.request_count + 1 := by
  refine ⟨fun cfg rt st now req t => rfl, rfl, rfl, ?_, rfl⟩
  norm_num [generate_response, rtSlowGen, rt3, loadedState, req0,
    defaultConfig]

end MlxApi
